import Mathlib

/-!
# PuCo `PusherConsumer` — shallow embedding and verification

This file embeds `src/puco/connection.py` (class `PusherConsumer`) in Lean 4
and proves properties of its behaviour.

Modelling conventions:

* A caller-supplied callback is a `Callback`: an identity (`id`) plus a
  `behavior` describing what invoking it with given arguments does — return
  normally (`none`), raise an ordinary Python exception, i.e. a subclass of
  `Exception` (`PyExc.exception`), or raise a `BaseException` that is *not* a
  subclass of `Exception`, such as `KeyboardInterrupt` or `SystemExit`
  (`PyExc.baseOnly`).
* Each Python method is a Lean function from the session state (and the
  method's arguments) to a `PResult`: the ordered list of observable actions
  the method performs (requests submitted to the pika engine, logging calls,
  callback invocations, attribute assignments), the resulting session state,
  and `exn`, the exception propagating out of the method (`none` when the
  method returns normally).
* The pika protocol engine is the external collaborator: its operations
  (`exchange_declare`, `queue_declare`, `queue_bind`, `basic_consume`,
  `basic_publish`, `channel`, `ioloop.start/stop`) appear as submitted
  requests in the action trace.  Channel handles are opaque (`Nat`).
* Accessing an attribute on a channel handle that is `None` raises Python
  `AttributeError`, which is a subclass of `Exception`; this is modelled as
  `PyExc.exception "AttributeError"`.
-/

/-- A Python exception value: either an ordinary exception (a subclass of
`Exception`) or a `BaseException` that is not an `Exception`
(e.g. `KeyboardInterrupt`, `SystemExit`). -/
inductive PyExc
  | exception (msg : String)
  | baseOnly (msg : String)
deriving DecidableEq

/-- A Python value passed as a callback argument: a string (message bodies,
routing keys, close reasons, delivery metadata) or an opaque handle. -/
inductive PyVal
  | vstr (s : String)
  | vnat (n : Nat)
deriving DecidableEq

/-- A caller-supplied callback: an identity, and the effect of invoking it on
a given argument list (`none` = returns normally, `some e` = raises `e`). -/
structure Callback where
  id : Nat
  behavior : List PyVal → Option PyExc

/-- The consumer handler the session registers with `basic_consume`: always
its own bound method `__icb_message_received_inform_callback`. -/
inductive HandlerTag
  | icbMessageReceived
deriving DecidableEq

/-- An observable action performed by a method of `PusherConsumer`, in
program order: requests submitted to the pika engine, logging calls, caller
callback invocations, and assignments to the channel-handle attributes. -/
inductive Act
  | invokeCallback (id : Nat) (args : List PyVal)
  | logDebug
  | logInfo
  | logWarning
  | logError
  | channelOpenRequest
  | exchangeDeclare (channel : Nat) (exchange : String) (exchType : String) (durable : Bool)
  | queueDeclare (channel : Nat) (queue : String)
  | queueBind (channel : Nat) (exchange : String) (queue : String) (routingKey : String)
  | basicConsume (channel : Nat) (queue : String) (handler : HandlerTag)
  | basicPublish (channel : Nat) (exchange : String) (routingKey : String) (body : String)
      (deliveryMode : Nat)
  | ioloopStart
  | ioloopStop
  | setPublishChannel (v : Option Nat)
  | setConsumChannel (v : Option Nat)
deriving DecidableEq

/-- The state of a `PusherConsumer` instance: the stored exchange name and
exchange type, the two channel handles (absent until the corresponding
channel-open notification), the five optional caller callbacks, and the
opaque pika connection handle created in `__init__`. -/
structure PusherConsumer where
  rabbitmq_exchange : String
  rabbitmq_exchange_type : String
  publish_channel : Option Nat
  consum_channel : Option Nat
  ecb_publish_channel_has_been_opend : Option Callback
  ecb_consum_channel_has_been_opend : Option Callback
  ecb_message_received : Option Callback
  ecb_connection_open_error : Option Callback
  ecb_connection_closed : Option Callback
  connection : Nat

/-- Result of running one method: the ordered trace of actions it performed,
the session state afterwards, and the exception propagating out of the
method (`none` when it returns normally). -/
structure PResult where
  trace : List Act
  state : PusherConsumer
  exn : Option PyExc

namespace PusherConsumer

/-- `PusherConsumer.__callback` (static): `if callback: try: callback(*args);
logging.debug(...) except Exception as e: logging.error(...)`.  Returns the
actions performed and the exception escaping the helper.  A falsy (absent)
callback does nothing.  A raised `Exception` is caught and logged
(`logError`); a `BaseException` that is not an `Exception` is not matched by
`except Exception` and escapes. -/
def callback (cb : Option Callback) (args : List PyVal) : List Act × Option PyExc :=
  match cb with
  | none => ([], none)
  | some c =>
    match c.behavior args with
    | none => ([Act.invokeCallback c.id args, Act.logDebug], none)
    | some (PyExc.exception _) => ([Act.invokeCallback c.id args, Act.logError], none)
    | some (PyExc.baseOnly m) => ([Act.invokeCallback c.id args], some (PyExc.baseOnly m))

/-- `PusherConsumer.__init__` with the fields it stores.  The pika
constructor calls (`PlainCredentials`, `ConnectionParameters`,
`SelectConnection`) belong to the external engine; the repository's own
constructor code performs no check on any argument and cannot reject the
configuration, so construction always yields this state.  The exchange type
is hard-coded to `"topic"`; both channel handles start absent. -/
def initState (rabbitmq_user rabbitmq_password rabbitmq_server : String)
    (rabbitmq_port : Nat) (rabbitmq_vhost rabbitmq_exchange : String)
    (on_publish_channel_has_been_opend on_consum_channel_has_been_opend
     on_message_received cb_connection_open_error cb_connection_closed :
       Option Callback) : PusherConsumer :=
  { rabbitmq_exchange := rabbitmq_exchange
    rabbitmq_exchange_type := "topic"
    publish_channel := none
    consum_channel := none
    ecb_publish_channel_has_been_opend := on_publish_channel_has_been_opend
    ecb_consum_channel_has_been_opend := on_consum_channel_has_been_opend
    ecb_message_received := on_message_received
    ecb_connection_open_error := cb_connection_open_error
    ecb_connection_closed := cb_connection_closed
    connection := 0 }

/-- `PusherConsumer.__init__` as construction that either rejects
(`Except.error`, a raised exception) or returns the new instance.  No
statement in the constructor's body raises for any argument value, so the
result is always `Except.ok`. -/
def init (rabbitmq_user rabbitmq_password rabbitmq_server : String)
    (rabbitmq_port : Nat) (rabbitmq_vhost rabbitmq_exchange : String)
    (cb1 cb2 cb3 cb4 cb5 : Option Callback) : Except String PusherConsumer :=
  Except.ok (initState rabbitmq_user rabbitmq_password rabbitmq_server
    rabbitmq_port rabbitmq_vhost rabbitmq_exchange cb1 cb2 cb3 cb4 cb5)

/-- `connect(self)`: `self.__connection.ioloop.start()`. -/
def connect (s : PusherConsumer) : PResult :=
  ⟨[Act.ioloopStart], s, none⟩

/-- `disconnect(self)`: `self.__connection.ioloop.stop()`. -/
def disconnect (s : PusherConsumer) : PResult :=
  ⟨[Act.ioloopStop], s, none⟩

/-- `__on_connection_open`: submits the two channel-open requests, then
`logging.info`. -/
def on_connection_open (s : PusherConsumer) : PResult :=
  ⟨[Act.channelOpenRequest, Act.channelOpenRequest, Act.logInfo], s, none⟩

/-- `__on_connection_open_error`: dispatches the open-error callback with the
error, then `logging.error`. -/
def on_connection_open_error (s : PusherConsumer) (error : String) : PResult :=
  let r := callback s.ecb_connection_open_error [PyVal.vstr error]
  match r.2 with
  | some exc => ⟨r.1, s, some exc⟩
  | none => ⟨r.1 ++ [Act.logError], s, none⟩

/-- `__on_connection_closed`: dispatches the closed callback with the reason
*first*, then sets `self.__publish_channel = None` and
`self.__consum_channel = None`, then `logging.warning`.  If the dispatch
itself propagates (a `BaseException` from the callback), the assignments are
never reached. -/
def on_connection_closed (s : PusherConsumer) (reason : String) : PResult :=
  let r := callback s.ecb_connection_closed [PyVal.vstr reason]
  match r.2 with
  | some exc => ⟨r.1, s, some exc⟩
  | none =>
    ⟨r.1 ++ [Act.setPublishChannel none, Act.setConsumChannel none,
       Act.logWarning],
     { s with publish_channel := none, consum_channel := none }, none⟩

/-- `__on_publish_channel_open`: stores the channel handle, submits
`exchange_declare(exchange, exchange_type, durable=True)` on it,
`logging.info`, then dispatches the publish-ready callback (no arguments). -/
def on_publish_channel_open (s : PusherConsumer) (channel : Nat) : PResult :=
  let s1 := { s with publish_channel := some channel }
  let r := callback s1.ecb_publish_channel_has_been_opend []
  ⟨[Act.setPublishChannel (some channel),
    Act.exchangeDeclare channel s1.rabbitmq_exchange s1.rabbitmq_exchange_type true,
    Act.logInfo] ++ r.1, s1, r.2⟩

/-- `__on_consum_channel_open`: symmetric to the publish case, on the consume
channel, dispatching the consume-ready callback. -/
def on_consum_channel_open (s : PusherConsumer) (channel : Nat) : PResult :=
  let s1 := { s with consum_channel := some channel }
  let r := callback s1.ecb_consum_channel_has_been_opend []
  ⟨[Act.setConsumChannel (some channel),
    Act.exchangeDeclare channel s1.rabbitmq_exchange s1.rabbitmq_exchange_type true,
    Act.logInfo] ++ r.1, s1, r.2⟩

/-- `__icb_message_received_inform_callback`: forwards channel, method,
properties and body to the message-received callback via the dispatch
helper. -/
def icb_message_received_inform_callback (s : PusherConsumer) (channel : Nat)
    (method properties body : String) : PResult :=
  let r := callback s.ecb_message_received
    [PyVal.vnat channel, PyVal.vstr method, PyVal.vstr properties, PyVal.vstr body]
  ⟨r.1, s, r.2⟩

/-- `register_consumer_queue_for_routing_key`: on the consume channel, in
order, `queue_declare(queue)`, `queue_bind(exchange, queue, routing_key)`,
`basic_consume(queue, on_message_callback=self.__icb_...)`, then
`logging.info`.  If the consume channel handle is `None`, the very first
attribute access raises `AttributeError` and nothing is submitted. -/
def register_consumer_queue_for_routing_key (s : PusherConsumer)
    (queue routing_key : String) : PResult :=
  match s.consum_channel with
  | none => ⟨[], s, some (PyExc.exception "AttributeError")⟩
  | some ch =>
    ⟨[Act.queueDeclare ch queue,
      Act.queueBind ch s.rabbitmq_exchange queue routing_key,
      Act.basicConsume ch queue HandlerTag.icbMessageReceived,
      Act.logInfo], s, none⟩

/-- `publish_message_for_routing_key`: `logging.info`, then
`basic_publish(exchange, routing_key, body=message,
properties=BasicProperties(delivery_mode=2))` on the publish channel.  If
the publish channel handle is `None`, the attribute access raises
`AttributeError` after the log line. -/
def publish_message_for_routing_key (s : PusherConsumer)
    (message routing_key : String) : PResult :=
  match s.publish_channel with
  | none => ⟨[Act.logInfo], s, some (PyExc.exception "AttributeError")⟩
  | some ch =>
    ⟨[Act.logInfo,
      Act.basicPublish ch s.rabbitmq_exchange routing_key message 2], s, none⟩

end PusherConsumer

/-- An external stimulus driving the session: an engine notification or a
call to one of the public methods. -/
inductive Event
  | connectionOpen
  | connectionOpenError (error : String)
  | connectionClosed (reason : String)
  | publishChannelOpen (channel : Nat)
  | consumChannelOpen (channel : Nat)
  | messageReceived (channel : Nat) (method properties body : String)
  | callConnect
  | callDisconnect
  | callRegister (queue routingKey : String)
  | callPublish (message routingKey : String)
deriving DecidableEq

/-- Dispatch one event to the corresponding method of the session. -/
def step (s : PusherConsumer) : Event → PResult
  | Event.connectionOpen => s.on_connection_open
  | Event.connectionOpenError e => s.on_connection_open_error e
  | Event.connectionClosed r => s.on_connection_closed r
  | Event.publishChannelOpen ch => s.on_publish_channel_open ch
  | Event.consumChannelOpen ch => s.on_consum_channel_open ch
  | Event.messageReceived ch m p b => s.icb_message_received_inform_callback ch m p b
  | Event.callConnect => s.connect
  | Event.callDisconnect => s.disconnect
  | Event.callRegister q rk => s.register_consumer_queue_for_routing_key q rk
  | Event.callPublish m rk => s.publish_message_for_routing_key m rk

/-- Run a sequence of events from a state, threading the state and
concatenating the traces. -/
def run (s : PusherConsumer) : List Event → PusherConsumer × List Act
  | [] => (s, [])
  | e :: es =>
    let r := step s e
    let p := run r.state es
    (p.1, r.trace ++ p.2)

/-- `b` occurs in the trace. -/
def containsAct (b : Act) : List Act → Bool
  | [] => false
  | x :: xs => if x = b then true else containsAct b xs

/-- `a` occurs in the trace strictly before an occurrence of `b` (looking at
the first occurrence of `a`). -/
def precedesBool (a b : Act) : List Act → Bool
  | [] => false
  | x :: xs => if x = a then containsAct b xs else precedesBool a b xs

/-- Number of occurrences of an action in a trace. -/
def countAct (a : Act) : List Act → Nat
  | [] => 0
  | x :: xs => (if x = a then 1 else 0) + countAct a xs

/-- Number of `basicPublish` requests in a trace. -/
def publishRequestCount : List Act → Nat
  | [] => 0
  | Act.basicPublish _ _ _ _ _ :: xs => publishRequestCount xs + 1
  | _ :: xs => publishRequestCount xs

/-- An action is either not an exchange declaration, or declares with type
`"topic"`. -/
def topicOnly : Act → Bool
  | Act.exchangeDeclare _ _ ty _ => ty = "topic"
  | _ => true

/-- Every exchange declaration in the trace uses type `"topic"`. -/
def declsAllTopic (t : List Act) : Bool := t.all topicOnly

/-- The callback raised a `BaseException` that is not an `Exception`
(`none` means the callback returned normally). -/
def isBaseOnly : Option PyExc → Bool
  | some (PyExc.baseOnly _) => true
  | _ => false

/-- The callback raised an ordinary `Exception`. -/
def isOrdinaryExc : Option PyExc → Bool
  | some (PyExc.exception _) => true
  | _ => false

/-- The construction contract as the specification states it: reject an
empty broker host, a port outside the valid TCP range 1..65535, or an empty
exchange name; otherwise construct the session state.  This definition
follows the spec's words, to be compared with `PusherConsumer.init`, the
constructor the code actually has. -/
def initAsSpecified (u pw srv : String) (port : Nat) (vh ex : String)
    (cb1 cb2 cb3 cb4 cb5 : Option Callback) : Except String PusherConsumer :=
  if srv = "" then Except.error "empty broker host"
  else if port = 0 ∨ 65535 < port then Except.error "port out of valid range"
  else if ex = "" then Except.error "empty exchange name"
  else Except.ok (PusherConsumer.initState u pw srv port vh ex cb1 cb2 cb3 cb4 cb5)

/-- A sample caller callback that returns normally. -/
def cbOk : Callback := ⟨0, fun _ => none⟩

/-- A sample caller callback that raises `ValueError`, an ordinary
`Exception`. -/
def cbRaises : Callback := ⟨1, fun _ => some (PyExc.exception "ValueError")⟩

/-- A sample caller callback that raises `KeyboardInterrupt`, a
`BaseException` that is not an `Exception`. -/
def cbInterrupts : Callback := ⟨2, fun _ => some (PyExc.baseOnly "KeyboardInterrupt")⟩

/-- A sample session with both channels open and every callback slot filled
with the well-behaved sample callback. -/
def sampleS : PusherConsumer :=
  { rabbitmq_exchange := "orders"
    rabbitmq_exchange_type := "topic"
    publish_channel := some 1
    consum_channel := some 2
    ecb_publish_channel_has_been_opend := some cbOk
    ecb_consum_channel_has_been_opend := some cbOk
    ecb_message_received := some cbOk
    ecb_connection_open_error := some cbOk
    ecb_connection_closed := some cbOk
    connection := 0 }

/-- A freshly constructed sample session (no channel has opened yet). -/
def sampleIdle : PusherConsumer :=
  PusherConsumer.initState "guest" "guest" "localhost" 5672 "/" "orders"
    (some cbOk) (some cbOk) (some cbOk) (some cbOk) (some cbOk)

/-- `sampleS` with a connection-closed callback that raises
`KeyboardInterrupt`. -/
def sampleKI : PusherConsumer :=
  { sampleS with ecb_connection_closed := some cbInterrupts }

/-- The dispatch helper never submits an exchange declaration. -/
theorem callback_trace_topic (cb : Option Callback) (args : List PyVal) :
    declsAllTopic (PusherConsumer.callback cb args).1 = true := by
  cases cb with
  | none => rfl
  | some c =>
    cases hb : c.behavior args with
    | none => simp [PusherConsumer.callback, hb, declsAllTopic, topicOnly]
    | some e =>
      cases e <;> simp [PusherConsumer.callback, hb, declsAllTopic, topicOnly]

/-- One step never changes the stored exchange type, and if the stored
exchange type is `"topic"` then every exchange declaration the step submits
uses `"topic"`. -/
theorem step_topic (s : PusherConsumer) (e : Event) :
    (step s e).state.rabbitmq_exchange_type = s.rabbitmq_exchange_type ∧
    (s.rabbitmq_exchange_type = "topic" → declsAllTopic (step s e).trace = true) := by
  cases e with
  | connectionOpen =>
    exact ⟨rfl, fun _ => by simp [step, PusherConsumer.on_connection_open,
      declsAllTopic, topicOnly]⟩
  | connectionOpenError err =>
    cases hcb : s.ecb_connection_open_error with
    | none =>
      constructor <;>
        simp [step, PusherConsumer.on_connection_open_error, PusherConsumer.callback,
          hcb, declsAllTopic, topicOnly]
    | some c =>
      cases hb : c.behavior [PyVal.vstr err] with
      | none =>
        constructor <;>
          simp [step, PusherConsumer.on_connection_open_error, PusherConsumer.callback,
            hcb, hb, declsAllTopic, topicOnly]
      | some ex =>
        cases ex <;> constructor <;>
          simp [step, PusherConsumer.on_connection_open_error, PusherConsumer.callback,
            hcb, hb, declsAllTopic, topicOnly]
  | connectionClosed r =>
    cases hcb : s.ecb_connection_closed with
    | none =>
      constructor <;>
        simp [step, PusherConsumer.on_connection_closed, PusherConsumer.callback,
          hcb, declsAllTopic, topicOnly]
    | some c =>
      cases hb : c.behavior [PyVal.vstr r] with
      | none =>
        constructor <;>
          simp [step, PusherConsumer.on_connection_closed, PusherConsumer.callback,
            hcb, hb, declsAllTopic, topicOnly]
      | some ex =>
        cases ex <;> constructor <;>
          simp [step, PusherConsumer.on_connection_closed, PusherConsumer.callback,
            hcb, hb, declsAllTopic, topicOnly]
  | publishChannelOpen ch =>
    refine ⟨rfl, fun h => ?_⟩
    have hcb := callback_trace_topic
      ({ s with publish_channel := some ch } :
        PusherConsumer).ecb_publish_channel_has_been_opend []
    simp only [step, PusherConsumer.on_publish_channel_open, declsAllTopic,
      List.all_append, List.all_cons, Bool.and_eq_true] at hcb ⊢
    exact ⟨⟨rfl, by simp [topicOnly, h], rfl, rfl⟩, hcb⟩
  | consumChannelOpen ch =>
    refine ⟨rfl, fun h => ?_⟩
    have hcb := callback_trace_topic
      ({ s with consum_channel := some ch } :
        PusherConsumer).ecb_consum_channel_has_been_opend []
    simp only [step, PusherConsumer.on_consum_channel_open, declsAllTopic,
      List.all_append, List.all_cons, Bool.and_eq_true] at hcb ⊢
    exact ⟨⟨rfl, by simp [topicOnly, h], rfl, rfl⟩, hcb⟩
  | messageReceived ch m p b =>
    refine ⟨rfl, fun _ => ?_⟩
    simpa [step, PusherConsumer.icb_message_received_inform_callback] using
      callback_trace_topic s.ecb_message_received
        [PyVal.vnat ch, PyVal.vstr m, PyVal.vstr p, PyVal.vstr b]
  | callConnect =>
    exact ⟨rfl, fun _ => by simp [step, PusherConsumer.connect, declsAllTopic, topicOnly]⟩
  | callDisconnect =>
    exact ⟨rfl, fun _ => by simp [step, PusherConsumer.disconnect, declsAllTopic, topicOnly]⟩
  | callRegister q rk =>
    cases hch : s.consum_channel with
    | none =>
      constructor <;>
        simp [step, PusherConsumer.register_consumer_queue_for_routing_key, hch,
          declsAllTopic, topicOnly]
    | some ch =>
      constructor <;>
        simp [step, PusherConsumer.register_consumer_queue_for_routing_key, hch,
          declsAllTopic, topicOnly]
  | callPublish m rk =>
    cases hch : s.publish_channel with
    | none =>
      constructor <;>
        simp [step, PusherConsumer.publish_message_for_routing_key, hch,
          declsAllTopic, topicOnly]
    | some ch =>
      constructor <;>
        simp [step, PusherConsumer.publish_message_for_routing_key, hch,
          declsAllTopic, topicOnly]

/-- Along any event sequence from a state whose exchange type is `"topic"`,
the exchange type stays `"topic"` and every declaration submitted uses
`"topic"`. -/
theorem run_topic (s : PusherConsumer) (events : List Event)
    (h : s.rabbitmq_exchange_type = "topic") :
    (run s events).1.rabbitmq_exchange_type = "topic" ∧
    declsAllTopic (run s events).2 = true := by
  induction events generalizing s with
  | nil => exact ⟨h, rfl⟩
  | cons e es ih =>
    have hstep := step_topic s e
    have h1 : (step s e).state.rabbitmq_exchange_type = "topic" := hstep.1.trans h
    have hrec := ih (step s e).state h1
    refine ⟨by simpa [run] using hrec.1, ?_⟩
    simp only [run, declsAllTopic, List.all_append, Bool.and_eq_true]
    exact ⟨hstep.2 h, hrec.2⟩

/-- C1: the dispatch helper `__callback` does nothing and raises no error
when the callback reference is absent; when present it invokes the callback
with the given arguments, and an ordinary exception raised by the callback
is caught, logged, and swallowed — it never propagates out of the helper. -/
theorem C1_callback_fault_boundary (c : Callback) (args : List PyVal)
    (h : isBaseOnly (c.behavior args) = false) :
    PusherConsumer.callback none args = ([], none) ∧
    (PusherConsumer.callback (some c) args).2 = none ∧
    containsAct (Act.invokeCallback c.id args)
      (PusherConsumer.callback (some c) args).1 = true ∧
    (isOrdinaryExc (c.behavior args) = true →
      containsAct Act.logError (PusherConsumer.callback (some c) args).1 = true) := by
  cases hb : c.behavior args with
  | none =>
    refine ⟨rfl, ?_, ?_, ?_⟩ <;>
      simp [PusherConsumer.callback, hb, containsAct, isOrdinaryExc]
  | some e =>
    cases e with
    | exception m =>
      refine ⟨rfl, ?_, ?_, ?_⟩ <;>
        simp [PusherConsumer.callback, hb, containsAct, isOrdinaryExc]
    | baseOnly m => simp [isBaseOnly, hb] at h

/-- C1 witness: the well-behaved sample callback at an empty argument
list. -/
theorem C1_witness :
    isBaseOnly (cbOk.behavior []) = false ∧
    (PusherConsumer.callback none [] = ([], none) ∧
     (PusherConsumer.callback (some cbOk) []).2 = none ∧
     containsAct (Act.invokeCallback cbOk.id [])
       (PusherConsumer.callback (some cbOk) []).1 = true ∧
     (isOrdinaryExc (cbOk.behavior []) = true →
       containsAct Act.logError (PusherConsumer.callback (some cbOk) []).1 = true)) :=
  ⟨rfl, C1_callback_fault_boundary cbOk [] rfl⟩

/-- C2 counterexample: at a concrete session whose closed-callback is the
sample callback (identity 0), the connection-closed handler invokes the
callback *before* invalidating the channel handles: the invalidations do not
precede the invocation in the performed trace, refuting the claimed order. -/
theorem C2_counterexample :
    (sampleS.on_connection_closed "gone").trace =
      [Act.invokeCallback 0 [PyVal.vstr "gone"], Act.logDebug,
       Act.setPublishChannel none, Act.setConsumChannel none, Act.logWarning] ∧
    precedesBool (Act.setPublishChannel none) (Act.invokeCallback 0 [PyVal.vstr "gone"])
      (sampleS.on_connection_closed "gone").trace = false ∧
    precedesBool (Act.setConsumChannel none) (Act.invokeCallback 0 [PyVal.vstr "gone"])
      (sampleS.on_connection_closed "gone").trace = false ∧
    precedesBool (Act.invokeCallback 0 [PyVal.vstr "gone"]) (Act.setPublishChannel none)
      (sampleS.on_connection_closed "gone").trace = true := by
  decide

/-- C2 (amended): on a connection-closed notification the session invokes
the on-connection-closed callback exactly once with the supplied close
reason, and then invalidates both channel handles (sets them absent); the
callback invocation precedes both invalidations. -/
theorem C2_closed_invokes_then_invalidates (s : PusherConsumer) (reason : String)
    (c : Callback) (hc : s.ecb_connection_closed = some c)
    (hb : isBaseOnly (c.behavior [PyVal.vstr reason]) = false) :
    (s.on_connection_closed reason).state.publish_channel = none ∧
    (s.on_connection_closed reason).state.consum_channel = none ∧
    (s.on_connection_closed reason).exn = none ∧
    countAct (Act.invokeCallback c.id [PyVal.vstr reason])
      (s.on_connection_closed reason).trace = 1 ∧
    precedesBool (Act.invokeCallback c.id [PyVal.vstr reason])
      (Act.setPublishChannel none) (s.on_connection_closed reason).trace = true ∧
    precedesBool (Act.invokeCallback c.id [PyVal.vstr reason])
      (Act.setConsumChannel none) (s.on_connection_closed reason).trace = true := by
  cases hbv : c.behavior [PyVal.vstr reason] with
  | none =>
    refine ⟨?_, ?_, ?_, ?_, ?_, ?_⟩ <;>
      simp [PusherConsumer.on_connection_closed, PusherConsumer.callback, hc, hbv,
        countAct, precedesBool, containsAct]
  | some e =>
    cases e with
    | exception m =>
      refine ⟨?_, ?_, ?_, ?_, ?_, ?_⟩ <;>
        simp [PusherConsumer.on_connection_closed, PusherConsumer.callback, hc, hbv,
          countAct, precedesBool, containsAct]
    | baseOnly m => simp [isBaseOnly, hbv] at hb

/-- C2 witness: the amended property at the concrete sample session and
reason `"bye"`. -/
theorem C2_witness :
    sampleS.ecb_connection_closed = some cbOk ∧
    isBaseOnly (cbOk.behavior [PyVal.vstr "bye"]) = false ∧
    ((sampleS.on_connection_closed "bye").state.publish_channel = none ∧
     (sampleS.on_connection_closed "bye").state.consum_channel = none ∧
     (sampleS.on_connection_closed "bye").exn = none ∧
     countAct (Act.invokeCallback cbOk.id [PyVal.vstr "bye"])
       (sampleS.on_connection_closed "bye").trace = 1 ∧
     precedesBool (Act.invokeCallback cbOk.id [PyVal.vstr "bye"])
       (Act.setPublishChannel none) (sampleS.on_connection_closed "bye").trace = true ∧
     precedesBool (Act.invokeCallback cbOk.id [PyVal.vstr "bye"])
       (Act.setConsumChannel none) (sampleS.on_connection_closed "bye").trace = true) :=
  ⟨rfl, rfl, C2_closed_invokes_then_invalidates sampleS "bye" cbOk rfl rfl⟩

/-- C3 counterexample: constructing with an empty broker host, port 0 and an
empty exchange name succeeds (the constructor rejects nothing), while the
specified validation would reject it. -/
theorem C3_counterexample :
    (PusherConsumer.init "guest" "guest" "" 0 "/" "" none none none none
      none).isOk = true ∧
    (initAsSpecified "guest" "guest" "" 0 "/" "" none none none none
      none).isOk = false := by
  decide

/-- C3 (amended): construction performs no validation — it succeeds for
every host, port and exchange name (empty and out-of-range values included),
storing the exchange name as given, fixing the exchange type to `"topic"`,
and starting with both channel handles absent. -/
theorem C3_construction_never_rejects (u pw srv : String) (port : Nat)
    (vh ex : String) (cb1 cb2 cb3 cb4 cb5 : Option Callback) :
    (PusherConsumer.init u pw srv port vh ex cb1 cb2 cb3 cb4 cb5).isOk = true ∧
    (PusherConsumer.initState u pw srv port vh ex cb1 cb2 cb3 cb4
      cb5).rabbitmq_exchange = ex ∧
    (PusherConsumer.initState u pw srv port vh ex cb1 cb2 cb3 cb4
      cb5).rabbitmq_exchange_type = "topic" ∧
    (PusherConsumer.initState u pw srv port vh ex cb1 cb2 cb3 cb4
      cb5).publish_channel = none ∧
    (PusherConsumer.initState u pw srv port vh ex cb1 cb2 cb3 cb4
      cb5).consum_channel = none :=
  ⟨rfl, rfl, rfl, rfl, rfl⟩

/-- C4: on each channel-open notification the session stores the channel
handle, submits a durable declaration of the configured exchange with the
configured type on that channel, and invokes the corresponding ready
callback only after the declare request is submitted. -/
theorem C4_channel_open_declare_then_ready (s : PusherConsumer) (chp chc : Nat)
    (cp cc : Callback)
    (hp : s.ecb_publish_channel_has_been_opend = some cp)
    (hbp : isBaseOnly (cp.behavior []) = false)
    (hc : s.ecb_consum_channel_has_been_opend = some cc)
    (hbc : isBaseOnly (cc.behavior []) = false) :
    ((s.on_publish_channel_open chp).state.publish_channel = some chp ∧
     containsAct (Act.exchangeDeclare chp s.rabbitmq_exchange
       s.rabbitmq_exchange_type true) (s.on_publish_channel_open chp).trace = true ∧
     precedesBool (Act.exchangeDeclare chp s.rabbitmq_exchange
       s.rabbitmq_exchange_type true) (Act.invokeCallback cp.id [])
       (s.on_publish_channel_open chp).trace = true) ∧
    ((s.on_consum_channel_open chc).state.consum_channel = some chc ∧
     containsAct (Act.exchangeDeclare chc s.rabbitmq_exchange
       s.rabbitmq_exchange_type true) (s.on_consum_channel_open chc).trace = true ∧
     precedesBool (Act.exchangeDeclare chc s.rabbitmq_exchange
       s.rabbitmq_exchange_type true) (Act.invokeCallback cc.id [])
       (s.on_consum_channel_open chc).trace = true) := by
  constructor
  · cases hbv : cp.behavior [] with
    | none =>
      refine ⟨?_, ?_, ?_⟩ <;>
        simp [PusherConsumer.on_publish_channel_open, PusherConsumer.callback, hp, hbv,
          containsAct, precedesBool]
    | some e =>
      cases e with
      | exception m =>
        refine ⟨?_, ?_, ?_⟩ <;>
          simp [PusherConsumer.on_publish_channel_open, PusherConsumer.callback, hp,
            hbv, containsAct, precedesBool]
      | baseOnly m => simp [isBaseOnly, hbv] at hbp
  · cases hbv : cc.behavior [] with
    | none =>
      refine ⟨?_, ?_, ?_⟩ <;>
        simp [PusherConsumer.on_consum_channel_open, PusherConsumer.callback, hc, hbv,
          containsAct, precedesBool]
    | some e =>
      cases e with
      | exception m =>
        refine ⟨?_, ?_, ?_⟩ <;>
          simp [PusherConsumer.on_consum_channel_open, PusherConsumer.callback, hc,
            hbv, containsAct, precedesBool]
      | baseOnly m => simp [isBaseOnly, hbv] at hbc

/-- C4 witness: both channel-open notifications at the concrete sample
session. -/
theorem C4_witness :
    sampleS.ecb_publish_channel_has_been_opend = some cbOk ∧
    isBaseOnly (cbOk.behavior []) = false ∧
    sampleS.ecb_consum_channel_has_been_opend = some cbOk ∧
    (((sampleS.on_publish_channel_open 7).state.publish_channel = some 7 ∧
      containsAct (Act.exchangeDeclare 7 sampleS.rabbitmq_exchange
        sampleS.rabbitmq_exchange_type true)
        (sampleS.on_publish_channel_open 7).trace = true ∧
      precedesBool (Act.exchangeDeclare 7 sampleS.rabbitmq_exchange
        sampleS.rabbitmq_exchange_type true) (Act.invokeCallback cbOk.id [])
        (sampleS.on_publish_channel_open 7).trace = true) ∧
     ((sampleS.on_consum_channel_open 8).state.consum_channel = some 8 ∧
      containsAct (Act.exchangeDeclare 8 sampleS.rabbitmq_exchange
        sampleS.rabbitmq_exchange_type true)
        (sampleS.on_consum_channel_open 8).trace = true ∧
      precedesBool (Act.exchangeDeclare 8 sampleS.rabbitmq_exchange
        sampleS.rabbitmq_exchange_type true) (Act.invokeCallback cbOk.id [])
        (sampleS.on_consum_channel_open 8).trace = true)) :=
  ⟨rfl, rfl, rfl,
   C4_channel_open_declare_then_ready sampleS 7 8 cbOk cbOk rfl rfl rfl rfl⟩

/-- C5: calling publish while the publish-channel handle is absent raises
(`AttributeError` from the attribute access on `None`), submits no publish
request, and leaves the session state unchanged. -/
theorem C5_publish_not_ready_errors (s : PusherConsumer)
    (message routing_key : String) (h : s.publish_channel = none) :
    (s.publish_message_for_routing_key message routing_key).exn =
      some (PyExc.exception "AttributeError") ∧
    (s.publish_message_for_routing_key message routing_key).state = s ∧
    publishRequestCount
      (s.publish_message_for_routing_key message routing_key).trace = 0 := by
  refine ⟨?_, ?_, ?_⟩ <;>
    simp [PusherConsumer.publish_message_for_routing_key, h, publishRequestCount]

/-- C5 witness: publishing on the freshly constructed sample session, whose
publish channel has not opened. -/
theorem C5_witness :
    sampleIdle.publish_channel = none ∧
    ((sampleIdle.publish_message_for_routing_key "order-42" "orders.created").exn =
       some (PyExc.exception "AttributeError") ∧
     (sampleIdle.publish_message_for_routing_key "order-42"
       "orders.created").state = sampleIdle ∧
     publishRequestCount (sampleIdle.publish_message_for_routing_key "order-42"
       "orders.created").trace = 0) :=
  ⟨rfl, C5_publish_not_ready_errors sampleIdle "order-42" "orders.created" rfl⟩

/-- C6: with the publish channel present, publish submits exactly one
publish request, on that channel, addressed to the configured exchange with
the given routing key and body and persistent delivery mode (2), and returns
normally with no value. -/
theorem C6_publish_one_durable_request (s : PusherConsumer) (ch : Nat)
    (message routing_key : String) (h : s.publish_channel = some ch) :
    (s.publish_message_for_routing_key message routing_key).exn = none ∧
    (s.publish_message_for_routing_key message routing_key).state = s ∧
    publishRequestCount
      (s.publish_message_for_routing_key message routing_key).trace = 1 ∧
    containsAct (Act.basicPublish ch s.rabbitmq_exchange routing_key message 2)
      (s.publish_message_for_routing_key message routing_key).trace = true := by
  refine ⟨?_, ?_, ?_, ?_⟩ <;>
    simp [PusherConsumer.publish_message_for_routing_key, h, publishRequestCount,
      containsAct]

/-- C6 witness: publishing on the sample session whose publish channel is
handle 1. -/
theorem C6_witness :
    sampleS.publish_channel = some 1 ∧
    ((sampleS.publish_message_for_routing_key "order-42" "orders.created").exn =
       none ∧
     (sampleS.publish_message_for_routing_key "order-42"
       "orders.created").state = sampleS ∧
     publishRequestCount (sampleS.publish_message_for_routing_key "order-42"
       "orders.created").trace = 1 ∧
     containsAct (Act.basicPublish 1 sampleS.rabbitmq_exchange "orders.created"
       "order-42" 2) (sampleS.publish_message_for_routing_key "order-42"
       "orders.created").trace = true) :=
  ⟨rfl, C6_publish_one_durable_request sampleS 1 "order-42" "orders.created" rfl⟩

/-- C7: with the consume channel present, registering a consumer queue
performs, in order, a declaration of the named queue, a binding of that
queue to the configured exchange under the given routing key, and a
registration of the session's internal message-dispatch handler as the
consumer for that queue, then returns normally with no value. -/
theorem C7_register_declares_binds_consumes (s : PusherConsumer) (ch : Nat)
    (queue routing_key : String) (h : s.consum_channel = some ch) :
    (s.register_consumer_queue_for_routing_key queue routing_key).exn = none ∧
    (s.register_consumer_queue_for_routing_key queue routing_key).state = s ∧
    (s.register_consumer_queue_for_routing_key queue routing_key).trace =
      [Act.queueDeclare ch queue,
       Act.queueBind ch s.rabbitmq_exchange queue routing_key,
       Act.basicConsume ch queue HandlerTag.icbMessageReceived,
       Act.logInfo] := by
  refine ⟨?_, ?_, ?_⟩ <;>
    simp [PusherConsumer.register_consumer_queue_for_routing_key, h]

/-- C7 witness: registering on the sample session whose consume channel is
handle 2. -/
theorem C7_witness :
    sampleS.consum_channel = some 2 ∧
    ((sampleS.register_consumer_queue_for_routing_key "order-queue"
       "orders.*").exn = none ∧
     (sampleS.register_consumer_queue_for_routing_key "order-queue"
       "orders.*").state = sampleS ∧
     (sampleS.register_consumer_queue_for_routing_key "order-queue"
       "orders.*").trace =
       [Act.queueDeclare 2 "order-queue",
        Act.queueBind 2 sampleS.rabbitmq_exchange "order-queue" "orders.*",
        Act.basicConsume 2 "order-queue" HandlerTag.icbMessageReceived,
        Act.logInfo]) :=
  ⟨rfl, C7_register_declares_binds_consumes sampleS 2 "order-queue" "orders.*" rfl⟩

/-- C8: for every construction and every sequence of events, the stored
exchange type remains `"topic"` (it is fixed by the constructor, which takes
no exchange-type argument), and every exchange declaration submitted along
the way uses type `"topic"`. -/
theorem C8_exchange_type_always_topic (u pw srv : String) (port : Nat)
    (vh ex : String) (cb1 cb2 cb3 cb4 cb5 : Option Callback)
    (events : List Event) :
    (run (PusherConsumer.initState u pw srv port vh ex cb1 cb2 cb3 cb4 cb5)
      events).1.rabbitmq_exchange_type = "topic" ∧
    declsAllTopic (run (PusherConsumer.initState u pw srv port vh ex cb1 cb2
      cb3 cb4 cb5) events).2 = true :=
  run_topic _ events rfl

/-- C9: disconnect only requests the event loop to stop — it raises nothing,
performs no other action, and leaves every session field (both channel
handles, the connection handle, the exchange configuration, and all five
callback references) unchanged. -/
theorem C9_disconnect_only_stops_loop (s : PusherConsumer) :
    s.disconnect.trace = [Act.ioloopStop] ∧
    s.disconnect.exn = none ∧
    s.disconnect.state.publish_channel = s.publish_channel ∧
    s.disconnect.state.consum_channel = s.consum_channel ∧
    s.disconnect.state.connection = s.connection ∧
    s.disconnect.state.rabbitmq_exchange = s.rabbitmq_exchange ∧
    s.disconnect.state.rabbitmq_exchange_type = s.rabbitmq_exchange_type ∧
    s.disconnect.state.ecb_publish_channel_has_been_opend =
      s.ecb_publish_channel_has_been_opend ∧
    s.disconnect.state.ecb_consum_channel_has_been_opend =
      s.ecb_consum_channel_has_been_opend ∧
    s.disconnect.state.ecb_message_received = s.ecb_message_received ∧
    s.disconnect.state.ecb_connection_open_error = s.ecb_connection_open_error ∧
    s.disconnect.state.ecb_connection_closed = s.ecb_connection_closed :=
  ⟨rfl, rfl, rfl, rfl, rfl, rfl, rfl, rfl, rfl, rfl, rfl, rfl⟩

/-- C10: the fault boundary of the dispatch helper catches only ordinary
exceptions: a callback raising a `BaseException` that is not an `Exception`
(e.g. `KeyboardInterrupt`) escapes the helper and propagates out of the
notification handler that triggered it (here the connection-closed handler,
which consequently never reaches its handle-invalidation assignments). -/
theorem C10_base_failure_propagates (s : PusherConsumer) (c : Callback)
    (reason m : String) (hc : s.ecb_connection_closed = some c)
    (hb : c.behavior [PyVal.vstr reason] = some (PyExc.baseOnly m)) :
    (PusherConsumer.callback (some c) [PyVal.vstr reason]).2 =
      some (PyExc.baseOnly m) ∧
    (s.on_connection_closed reason).exn = some (PyExc.baseOnly m) ∧
    (s.on_connection_closed reason).state = s := by
  refine ⟨?_, ?_, ?_⟩ <;>
    simp [PusherConsumer.callback, PusherConsumer.on_connection_closed, hc, hb]

/-- C10 witness: the sample session whose connection-closed callback raises
`KeyboardInterrupt`. -/
theorem C10_witness :
    sampleKI.ecb_connection_closed = some cbInterrupts ∧
    cbInterrupts.behavior [PyVal.vstr "gone"] =
      some (PyExc.baseOnly "KeyboardInterrupt") ∧
    ((PusherConsumer.callback (some cbInterrupts) [PyVal.vstr "gone"]).2 =
       some (PyExc.baseOnly "KeyboardInterrupt") ∧
     (sampleKI.on_connection_closed "gone").exn =
       some (PyExc.baseOnly "KeyboardInterrupt") ∧
     (sampleKI.on_connection_closed "gone").state = sampleKI) :=
  ⟨rfl, rfl,
   C10_base_failure_propagates sampleKI cbInterrupts "gone" "KeyboardInterrupt"
     rfl rfl⟩
